import Mathlib

set_option maxRecDepth 8000

/-!
# Verification of the completion-tracking and submission logic of
# `mriqc_sub.py` / `mriqc_group.py`

A shallow embedding of the two scripts' `main` functions.  Paths are
modelled as lists of path components (`pathlib` drops empty components
when joining, which the embedding reproduces).  The filesystem, the
environment and the outputs of external commands are an explicit record
of oracle functions (`FileSys`).  Every externally visible action a run
performs (directory removal, report deletion, the running-job query,
working-directory creation, running/submitting a command) is recorded
in an effect trace, and each per-session iteration of the loop yields a
`UnitResult` carrying its outcome, its found/expected report counts and
its effects.  Uncaught Python exceptions are modelled as `crashed…`
outcomes that abort the batch loop.
-/

/-! ## String helpers (Python `in`, `str.startswith`, `glob` patterns) -/

/-- Does the second list start with the first list?  (Executable, used to
model Python's `str.startswith` and substring containment.) -/
def charsStart : List Char → List Char → Bool
  | [], _ => true
  | _ :: _, [] => false
  | a :: as, b :: bs => a == b && charsStart as bs

/-- Does the second list contain the first list as a contiguous run? -/
def charsContain (needle : List Char) : List Char → Bool
  | [] => charsStart needle []
  | b :: bs => charsStart needle (b :: bs) || charsContain needle bs

/-- Python's `needle in hay` on strings. -/
def strContains (hay needle : String) : Bool := charsContain needle.toList hay.toList

/-- Python's `s.startswith(p)`. -/
def strStarts (s p : String) : Bool := charsStart p.toList s.toList

/-- Fuelled glob matcher: `*` matches any run of characters, `?` exactly
one character, anything else itself.  Each recursive call strictly
decreases `pat.length + s.length`, so fuel `pat.length + s.length + 1`
is always sufficient; the fuel only makes the recursion structural. -/
def globMatchAux : Nat → List Char → List Char → Bool
  | 0, _, _ => false
  | fuel + 1, pat, s =>
    match pat, s with
    | [], [] => true
    | [], _ :: _ => false
    | '*' :: ps, [] => globMatchAux fuel ps []
    | '*' :: ps, c :: cs => globMatchAux fuel ps (c :: cs) || globMatchAux fuel ('*' :: ps) cs
    | _ :: _, [] => false
    | '?' :: ps, _ :: cs => globMatchAux fuel ps cs
    | pc :: ps, c :: cs => pc == c && globMatchAux fuel ps cs

/-- `Path.glob`-style filename pattern match (no `/` in filenames here). -/
def globMatch (pat s : String) : Bool :=
  globMatchAux (pat.toList.length + s.toList.length + 1) pat.toList s.toList

/-! ## The environment -/

/-- The resource manager, `'slurm' if 'slurm' in os.getenv('PATH') else
'torque'`.  (The scripts' `else: exit(1)` branch for an invalid manager
is unreachable because this derivation only ever yields the two valid
values.) -/
inductive Manager
  | torque
  | slurm
  deriving DecidableEq, Repr

/-- One externally visible action of a run. -/
inductive Effect
  /-- `shutil.rmtree(path, ignore_errors=True)` — never raises. -/
  | rmtree (path : List String)
  /-- `report.unlink()` — a successful deletion of a report file. -/
  | unlinkReport (path : List String)
  /-- The `subprocess.run` that queries the resource manager for
  running/queued job names (`qstat`/`squeue`). -/
  | query (cmd : String)
  /-- `workdir.mkdir(parents=True, exist_ok=True)`. -/
  | mkdirWork (path : List String)
  /-- The `subprocess.run` that runs the job locally or hands it to the
  submit command. -/
  | runCmd (cmd : String)
  /-- The error report printed when the run's stderr is non-empty or its
  return code is non-zero. -/
  | submitError (cmd : String)
  deriving DecidableEq, Repr

/-- Oracles for everything `main` reads from the outside world:
directory existence, directory listings, whether an `unlink` succeeds
(`false` models an `OSError`), and the stdout/stderr/return code of each
`subprocess.run`, keyed by the command string. -/
structure FileSys where
  isDir : List String → Bool
  listDir : List String → List String
  unlinkOk : List String → Bool
  runStdout : String → String
  runStderr : String → String
  runRC : String → Int

/-- The parameters of `mriqc_sub.main` together with the process
environment it reads (`PATH`, `tempfile.gettempdir()`, `Path.cwd()`,
`DCCN_OPT_DIR`, `MRIQC_VERSION`). -/
structure Config where
  bidsdir : List String
  outputdirArg : List String
  workroot : String
  force : Bool
  mem_gb : Nat
  walltime : Nat
  file_gb_ : Nat
  args : String
  qargs : String
  dryrun : Bool
  nosub : Bool
  skip : Bool
  pathEnv : String
  tmpdir : String
  cwd : String
  dccnOptDir : String
  mriqcVersion : String

/-- `manager = 'slurm' if 'slurm' in os.getenv('PATH') else 'torque'`. -/
def Config.manager (cfg : Config) : Manager :=
  if strContains cfg.pathEnv "slurm" then .slurm else .torque

/-- `if not outputdir.name: outputdir = bidsdir/'derivatives/mriqc'`. -/
def Config.outputdir (cfg : Config) : List String :=
  if cfg.outputdirArg.isEmpty then cfg.bidsdir ++ ["derivatives", "mriqc"] else cfg.outputdirArg

/-- Render a path for inclusion in a command string. -/
def pathStr (p : List String) : String := String.intercalate "/" p

/-! ## Session identities and completion counting -/

/-- `sub_id = [part for part in session.parts if part.startswith('sub-')][0]`
and the analogous `ses_id` extraction (with `''` when there is no
session part).  `none` models the `IndexError` raised when no path part
starts with `sub-`. -/
def sessionIds (session : List String) : Option (String × String) :=
  match (session.filter fun part => strStarts part "sub-").head? with
  | none => none
  | some sub_id =>
    some (sub_id, ((session.filter fun part => strStarts part "ses-").head?).getD "")

/-- `bidsdir/sub_id/ses_id` — `pathlib` drops the empty `ses_id`. -/
def unitPath (cfg : Config) (sub_id ses_id : String) : List String :=
  if ses_id = "" then cfg.bidsdir ++ [sub_id] else cfg.bidsdir ++ [sub_id, ses_id]

/-- The number of files in `dir` matching the glob pattern `pat`. -/
def countGlob (fs : FileSys) (dir : List String) (pat : String) : Nat :=
  ((fs.listDir dir).filter fun f => globMatch pat f).length

/-- `nrniifiles`: T1/T2-weighted files in `anat` and `extra_data` plus
bold files in `func` and `extra_data`, each matched by a pattern
starting with `{sub_id}_{ses_id}`. -/
def expectedCount (cfg : Config) (fs : FileSys) (sub_id ses_id : String) : Nat :=
  countGlob fs (unitPath cfg sub_id ses_id ++ ["anat"]) s!"{sub_id}_{ses_id}*T?w.nii*" +
  countGlob fs (unitPath cfg sub_id ses_id ++ ["extra_data"]) s!"{sub_id}_{ses_id}*T?w.nii*" +
  countGlob fs (unitPath cfg sub_id ses_id ++ ["func"]) s!"{sub_id}_{ses_id}*bold.nii*" +
  countGlob fs (unitPath cfg sub_id ses_id ++ ["extra_data"]) s!"{sub_id}_{ses_id}*bold.nii*"

/-- `reports = list(outputdir.glob(f"{sub_id}_{ses_id}*.html"))`. -/
def foundReports (cfg : Config) (fs : FileSys) (sub_id ses_id : String) : List String :=
  (fs.listDir cfg.outputdir).filter fun f => globMatch s!"{sub_id}_{ses_id}*.html" f

/-! ## The per-session body of the loop of `mriqc_sub.main` -/

/-- Outcome of one iteration of the session loop. -/
inductive Outcome
  /-- `if not session.is_dir(): print(...); continue`. -/
  | notADir
  /-- `IndexError`: no path part starts with `sub-`. -/
  | crashedNoSubId
  /-- Uncaught `OSError` from `report.unlink()` during forced cleanup. -/
  | crashedUnlink
  /-- `skip` is set and the job name occurs in the query's stdout. -/
  | skippedRunning
  /-- The submit/run branch was reached (in dry-run mode it only
  prints). -/
  | launched
  /-- `found == expected` and not forced: nothing to do. -/
  | nothingToDo
  deriving DecidableEq, Repr

/-- Did this outcome abort the whole batch with an exception? -/
def Outcome.isCrash : Outcome → Bool
  | .crashedNoSubId => true
  | .crashedUnlink => true
  | _ => false

/-- The result of one session iteration: outcome, the found/expected
counts it printed (0/0 when the iteration ended before counting), and
its effect trace in order. -/
structure UnitResult where
  outcome : Outcome
  found : Nat
  expected : Nat
  effects : List Effect
  deriving DecidableEq, Repr

/-- The `for report in reports: print(...); report.unlink()` loop:
effects of the successful unlinks in order, and `false` when one raised
(the remaining reports are then not attempted). -/
def unlinkAll (fs : FileSys) (outputdir : List String) : List String → List Effect × Bool
  | [] => ([], true)
  | r :: rs =>
    if fs.unlinkOk (outputdir ++ [r]) then
      let rest := unlinkAll fs outputdir rs
      (.unlinkReport (outputdir ++ [r]) :: rest.1, rest.2)
    else ([], false)

/-- The shell command that queries running/queued/held job names. -/
def subQueryCmd : Manager → String
  | .torque =>
    "if [ ! -z \"$(qselect -s RQH)\" ]; then qstat -f $(qselect -s RQH) | grep Job_Name | grep mriqc_sub; fi"
  | .slurm => "squeue -h -o format=%j | grep mriqc_sub"

/-- The job name `f"mriqc_{sub_id}_{ses_id}"` used both in the submit
command and in the already-running check. -/
def jobName (sub_id ses_id : String) : String := s!"mriqc_{sub_id}_{ses_id}"

/-- The working directory: `tempdir/f"{sub_id}_{ses_id}"` when no work
root is given, else `Path(workroot)/f"{sub_id}_{ses_id}"` (the tempdir
is `tempfile.gettempdir()` when running locally and the literal
`\$TMPDIR` otherwise). -/
def workdirOf (cfg : Config) (sub_id ses_id : String) : List String :=
  let tempdir := if cfg.nosub then cfg.tmpdir else "\\$TMPDIR"
  if cfg.workroot = "" then [tempdir, s!"{sub_id}_{ses_id}"]
  else [cfg.workroot, s!"{sub_id}_{ses_id}"]

/-- The `qsub`/`sbatch` submit command string. -/
def submitCmd (cfg : Config) (sub_id ses_id file_gb : String) : String :=
  let wt := cfg.walltime
  let mem := cfg.mem_gb
  let qargs := cfg.qargs
  let name := jobName sub_id ses_id
  match cfg.manager with
  | .torque => s!"qsub -l walltime={wt}:00:00,mem={mem}gb{file_gb} -N {name} {qargs}"
  | .slurm => s!"sbatch --job-name={name} --mem={mem}G --time={wt}:00:00 {file_gb} {qargs}"

/-- The body of the here-document job script handed to the cluster (the
`textwrap.dedent(f"""...""")` string). -/
def jobScript (cfg : Config) (tempdir : String) (workdir : List String)
    (sub_id ses_id_opt : String) : String :=
  let cwd := cfg.cwd
  let opt := cfg.dccnOptDir
  let ver := cfg.mriqcVersion
  let bids := pathStr cfg.bidsdir
  let outp := pathStr cfg.outputdir
  let wdir := pathStr workdir
  let label := sub_id.drop 4
  let mem := cfg.mem_gb
  let args := cfg.args
  s!"#!/bin/bash\nulimit -v unlimited\ncd {cwd}              \napptainer run --cleanenv --bind {tempdir}:/tmp {opt}/mriqc/{ver}/mriqc-{ver}.simg {bids} {outp} participant -w {wdir} --participant-label {label} {ses_id_opt} --verbose-reports --mem_gb {mem} --ants-nthreads 1 --nprocs 1 {args}"

/-- Lines 76–84 of `mriqc_sub.py`: when forcing (and not in a dry run),
remove the working directory if it exists (`shutil.rmtree` with
`ignore_errors=True`), then unlink each stale report.  Returns the
cleanup's effect trace and whether every unlink succeeded (`false`
models the uncaught `OSError` of a failed `report.unlink()`). -/
def cleanupPhase (cfg : Config) (fs : FileSys) (sub_id ses_id : String)
    (reports : List String) : List Effect × Bool :=
  let workdir := workdirOf cfg sub_id ses_id
  let cleanupRm : List Effect :=
    if cfg.force && fs.isDir workdir && !cfg.dryrun then [.rmtree workdir] else []
  let unl := if cfg.force && !cfg.dryrun then unlinkAll fs cfg.outputdir reports else ([], true)
  (cleanupRm ++ unl.1, unl.2)

/-- Lines 53–62 and 97–109: the command the submit/run step executes —
the bare job script in local-run mode, otherwise the submit command fed
the job script as a here-document. -/
def buildCommand (cfg : Config) (sub_id ses_id : String) : String :=
  let ses_id_opt := if ses_id = "" then "" else s!" --session-id {ses_id.drop 4}"
  let tempdir := if cfg.nosub then cfg.tmpdir else "\\$TMPDIR"
  let workdir := workdirOf cfg sub_id ses_id
  let file_gb :=
    if cfg.workroot = "" then
      match cfg.manager with
      | .torque => s!",file={cfg.file_gb_}gb"
      | .slurm => s!"--tmp={cfg.file_gb_}G"
    else ""
  let submit := submitCmd cfg sub_id ses_id file_gb
  let job := jobScript cfg tempdir workdir sub_id ses_id_opt
  if cfg.nosub then job else s!"{submit} <<EOF\n{job}\nEOF"

/-- Lines 86–119 after a successful cleanup: run the registry query,
make the work directory in local-run mode, then either skip because the
job name is already in the query's stdout, print only (dry run), or
execute the command (recording an error report on non-zero exit or
non-empty stderr, and removing the working directory afterwards in
local-run mode). -/
def runPhase (cfg : Config) (fs : FileSys) (sub_id ses_id : String)
    (found nr : Nat) (cleanupEffs : List Effect) : UnitResult :=
  let queryCmd := subQueryCmd cfg.manager
  let workdir := workdirOf cfg sub_id ses_id
  let mkdirEffs : List Effect := if cfg.nosub then [.mkdirWork workdir] else []
  let command := buildCommand cfg sub_id ses_id
  let pre := cleanupEffs ++ [.query queryCmd] ++ mkdirEffs
  if cfg.skip && strContains (fs.runStdout queryCmd) (jobName sub_id ses_id) then
    ⟨.skippedRunning, found, nr, pre⟩
  else if cfg.dryrun then
    ⟨.launched, found, nr, pre⟩
  else
    let errEffs : List Effect :=
      if fs.runStderr command != "" || fs.runRC command != 0 then [.submitError command]
      else []
    let post : List Effect := if cfg.nosub then [.rmtree workdir] else []
    ⟨.launched, found, nr, pre ++ [.runCmd command] ++ errEffs ++ post⟩

/-- Lines 64–122 of `mriqc_sub.py`, after the session directory has been
found to exist and `sub_id`/`ses_id` have been extracted: count inputs
and reports, and either report "nothing to do" (`found == expected` and
not forcing) or go down the cleanup → query → build → skip-or-run
path. -/
def processUnit (cfg : Config) (fs : FileSys) (sub_id ses_id : String) : UnitResult :=
  let nrniifiles := expectedCount cfg fs sub_id ses_id
  let reports := foundReports cfg fs sub_id ses_id
  if cfg.force || !(reports.length == nrniifiles) then
    let cl := cleanupPhase cfg fs sub_id ses_id reports
    if !cl.2 then ⟨.crashedUnlink, reports.length, nrniifiles, cl.1⟩
    else runPhase cfg fs sub_id ses_id reports.length nrniifiles cl.1
  else
    ⟨.nothingToDo, reports.length, nrniifiles, []⟩

/-- One full iteration of the session loop for a session path. -/
def processSession (cfg : Config) (fs : FileSys) (session : List String) : UnitResult :=
  if !fs.isDir session then ⟨.notADir, 0, 0, []⟩
  else
    match sessionIds session with
    | none => ⟨.crashedNoSubId, 0, 0, []⟩
    | some (sub_id, ses_id) => processUnit cfg fs sub_id ses_id

/-- The session loop.  An uncaught exception in an iteration aborts the
batch: the remaining sessions are never processed. -/
def runLoop (cfg : Config) (fs : FileSys) : List (List String) → List UnitResult
  | [] => []
  | s :: rest =>
    let r := processSession cfg fs s
    if r.outcome.isCrash then [r] else r :: runLoop cfg fs rest

/-- Session enumeration (lines 30–35): an explicit list is resolved
against `bidsdir` without existence filtering; otherwise glob
`sub-*/ses-*`, falling back to flat `sub-*`. -/
def resolveSessions (cfg : Config) (fs : FileSys) (sessions : List String) : List (List String) :=
  if sessions.isEmpty then
    let subs := (fs.listDir cfg.bidsdir).filter fun d => globMatch "sub-*" d
    let two := subs.flatMap fun sub =>
      ((fs.listDir (cfg.bidsdir ++ [sub])).filter fun d => globMatch "ses-*" d).map
        fun ses => cfg.bidsdir ++ [sub, ses]
    if two.isEmpty then subs.map fun sub => cfg.bidsdir ++ [sub] else two
  else sessions.map fun s => cfg.bidsdir ++ s.splitOn "/"

/-- `mriqc_sub.main`: resolve the sessions, then run the loop. -/
def mainRun (cfg : Config) (fs : FileSys) (sessions : List String) : List UnitResult :=
  runLoop cfg fs (resolveSessions cfg fs sessions)

/-- Did the batch loop complete without an uncaught exception (so the
process exits with status zero)? -/
def runCompletes (results : List UnitResult) : Bool :=
  results.all fun r => !r.outcome.isCrash

/-! ## Effect-trace observers -/

def isQueryEff : Effect → Bool
  | .query _ => true
  | _ => false

def isRunCmdEff : Effect → Bool
  | .runCmd _ => true
  | _ => false

def isRmtreeEff : Effect → Bool
  | .rmtree _ => true
  | _ => false

def isUnlinkEff : Effect → Bool
  | .unlinkReport _ => true
  | _ => false

def isMkdirEff : Effect → Bool
  | .mkdirWork _ => true
  | _ => false

/-- Number of running-job queries in a trace. -/
def queryCount (effs : List Effect) : Nat := (effs.filter isQueryEff).length

/-- Is a submission / local run present in a trace? -/
def hasRunCmd (effs : List Effect) : Bool := effs.any isRunCmdEff

def hasRmtree (effs : List Effect) : Bool := effs.any isRmtreeEff

def hasUnlink (effs : List Effect) : Bool := effs.any isUnlinkEff

def hasMkdir (effs : List Effect) : Bool := effs.any isMkdirEff

/-- Total number of registry queries across a whole pass. -/
def totalQueries (results : List UnitResult) : Nat :=
  (results.map fun r => queryCount r.effects).sum

/-! ## `mriqc_group.main` -/

/-- The parameters of `mriqc_group.main` together with the process
environment it reads.  (The function's `manager` parameter is
immediately overwritten from `PATH`, so it is not modelled.) -/
structure GroupConfig where
  bidsdir : List String
  outputdirArg : List String
  force : Bool
  mem_gb : Nat
  args : String
  qargs : String
  nosub : Bool
  pathEnv : String
  cwd : String
  dccnOptDir : String
  mriqcVersion : String

def GroupConfig.manager (cfg : GroupConfig) : Manager :=
  if strContains cfg.pathEnv "slurm" then .slurm else .torque

def GroupConfig.outputdir (cfg : GroupConfig) : List String :=
  if cfg.outputdirArg.isEmpty then cfg.bidsdir ++ ["derivatives", "mriqc"] else cfg.outputdirArg

/-- `reports = list(outputdir.glob('sub-*.html'))`. -/
def groupReports (cfg : GroupConfig) (fs : FileSys) : List String :=
  (fs.listDir cfg.outputdir).filter fun f => globMatch "sub-*.html" f

/-- Outcome of a `mriqc_group.main` call. -/
inductive GroupOutcome
  /-- `if not outputdir.is_dir(): print(ERROR); return`. -/
  | noOutputDir
  /-- `if not reports: return`. -/
  | noReports
  /-- `AttributeError`: with `force` unset the guard evaluates
  `running.stdout.decode()`, but `subprocess.run(..., text=True)`
  already returned `stdout` as a decoded `str`, which has no `.decode`
  method. -/
  | crashedDecode
  /-- The submit branch ran. -/
  | submitted
  deriving DecidableEq, Repr

/-- The running-job query command of the group script (it greps for
`mriqc_`, matching both participant and group jobs). -/
def groupQueryCmd : Manager → String
  | .torque =>
    "if [ ! -z \"$(qselect -s RQH)\" ]; then qstat -f $(qselect -s RQH) | grep Job_Name | grep mriqc_; fi"
  | .slurm => "squeue -h -o format=%j | grep mriqc_"

/-- The group job's submit command string. -/
def groupSubmitCmd (cfg : GroupConfig) : String :=
  let mem := cfg.mem_gb
  let qargs := cfg.qargs
  match cfg.manager with
  | .torque => s!"qsub -l walltime=0:10:00,mem={mem}gb -N mriqc_group {qargs}"
  | .slurm => s!"sbatch --job-name=mriqc_group --mem={mem}G --time=0:10:00 {qargs}"

/-- The group job's here-document body. -/
def groupJobScript (cfg : GroupConfig) : String :=
  let cwd := cfg.cwd
  let opt := cfg.dccnOptDir
  let ver := cfg.mriqcVersion
  let bids := pathStr cfg.bidsdir
  let outp := pathStr cfg.outputdir
  let args := cfg.args
  s!"#!/bin/bash\nulimit -v unlimited\ncd {cwd}              \napptainer run --cleanenv {opt}/mriqc/{ver}/mriqc-{ver}.simg {bids} {outp} group --nprocs 1 {args}"

/-- `mriqc_group.main`: check the output directory, require at least one
`sub-*.html` report, query the registry, then either crash in the
`not force and 'mriqc_' in running.stdout.decode()` guard (whenever
`force` is unset: `running.stdout` is a `str` because of `text=True`,
so `.decode()` raises `AttributeError` before the skip/submit decision;
the short-circuit with `force` set never evaluates it) or submit. -/
def groupRun (cfg : GroupConfig) (fs : FileSys) : GroupOutcome × List Effect :=
  if !fs.isDir cfg.outputdir then (.noOutputDir, [])
  else if (groupReports cfg fs).isEmpty then (.noReports, [])
  else
    let queryCmd := groupQueryCmd cfg.manager
    let job := groupJobScript cfg
    let command := if cfg.nosub then job else s!"{groupSubmitCmd cfg} <<EOF\n{job}\nEOF"
    if !cfg.force then (.crashedDecode, [.query queryCmd])
    else
      let errEffs : List Effect :=
        if fs.runStderr command != "" || fs.runRC command != 0 then [.submitError command]
        else []
      (.submitted, [.query queryCmd, .runCmd command] ++ errEffs)

/-! ## Concrete environments used by witnesses and counterexamples -/

/-- A dataset with `sub-01/ses-1` holding one T1-weighted and two bold
files (Scenario A of the spec), a flat `sub-02` holding one T1-weighted
file, and an empty output directory.  All deletions succeed, the
running-job query returns nothing, and every command succeeds. -/
def fsA : FileSys where
  isDir p := p ∈ [["bids"], ["bids", "sub-01", "ses-1"], ["bids", "sub-02"], ["out"]]
  listDir p :=
    if p = ["bids"] then ["sub-01", "sub-02"]
    else if p = ["bids", "sub-01"] then ["ses-1"]
    else if p = ["bids", "sub-01", "ses-1", "anat"] then ["sub-01_ses-1_T1w.nii.gz"]
    else if p = ["bids", "sub-01", "ses-1", "func"] then
      ["sub-01_ses-1_task-a_bold.nii.gz", "sub-01_ses-1_task-b_bold.nii.gz"]
    else if p = ["bids", "sub-02", "anat"] then ["sub-02_T1w.nii.gz"]
    else []
  unlinkOk _ := true
  runStdout _ := ""
  runStderr _ := ""
  runRC _ := 0

/-- Baseline configuration: no force, no dry-run, submit mode, skip
enabled, no work root, a torque environment. -/
def cfgA : Config where
  bidsdir := ["bids"]
  outputdirArg := ["out"]
  workroot := ""
  force := false
  mem_gb := 18
  walltime := 8
  file_gb_ := 50
  args := ""
  qargs := ""
  dryrun := false
  nosub := false
  skip := true
  pathEnv := "/usr/bin:/bin"
  tmpdir := "/tmp"
  cwd := "/home/user"
  dccnOptDir := "/opt/dccn"
  mriqcVersion := "23.1.0"

/-- Scenario B environment: like `fsA` but the output directory already
holds the three matching reports for `sub-01/ses-1`. -/
def fsB : FileSys :=
  { fsA with listDir := fun p =>
      if p = ["out"] then
        ["sub-01_ses-1_T1w.html", "sub-01_ses-1_task-a_bold.html", "sub-01_ses-1_task-b_bold.html"]
      else fsA.listDir p }

/-- Like `fsA` but the running-job query reports `mriqc_sub-01_ses-1` as
running/queued. -/
def fsC3 : FileSys :=
  { fsA with runStdout := fun _ => "mriqc_sub-01_ses-1\nmriqc_sub-03_ses-1\n" }

/-- Like `fsB` (three stale reports present) but deleting the first
report fails with an `OSError`. -/
def fsC6 : FileSys :=
  { fsB with unlinkOk := fun p => p ≠ ["out", "sub-01_ses-1_T1w.html"] }

/-- Like `fsA` but every submitted/locally run command fails (non-zero
return code and non-empty stderr). -/
def fsC7 : FileSys :=
  { fsA with runStderr := fun _ => "boom", runRC := fun _ => 1 }

/-- `cfgA` with `force` set. -/
def cfgForce : Config := { cfgA with force := true }

/-- `cfgA` in dry-run mode. -/
def cfgDry : Config := { cfgA with dryrun := true }

/-- `cfgA` in dry-run and local-run mode at once. -/
def cfgDryNosub : Config := { cfgA with dryrun := true, nosub := true }

/-- `cfgA` in local-run mode with a user-specified persistent work
root. -/
def cfgC7 : Config := { cfgA with nosub := true, workroot := "/work" }

/-- A group-script configuration with `force` set and an explicit output
directory. -/
def gcfgA : GroupConfig where
  bidsdir := ["bids"]
  outputdirArg := ["out"]
  force := true
  mem_gb := 1
  args := ""
  qargs := ""
  nosub := false
  pathEnv := "/usr/bin:/bin"
  cwd := "/home/user"
  dccnOptDir := "/opt/dccn"
  mriqcVersion := "23.1.0"

/-- `gcfgA` with `force` unset. -/
def gcfgNF : GroupConfig := { gcfgA with force := false }

/-- Group environment: the output directory exists and holds one
participant-level report. -/
def gfsA : FileSys where
  isDir p := p = ["out"]
  listDir p := if p = ["out"] then ["sub-01_ses-1_T1w.html"] else []
  unlinkOk _ := true
  runStdout _ := ""
  runStderr _ := ""
  runRC _ := 0

/-- Group environment: the output directory exists but holds no
participant-level report. -/
def gfsEmpty : FileSys :=
  { gfsA with listDir := fun _ => [] }

/-! ## Supporting lemmas -/

lemma unlinkAll_all_unlink (fs : FileSys) (out : List String) :
    ∀ rs, ((unlinkAll fs out rs).1.all isUnlinkEff) = true := by
  intro rs
  induction rs with
  | nil => rfl
  | cons r rs ih =>
    simp only [unlinkAll]
    split
    · simpa [isUnlinkEff] using ih
    · rfl

lemma all_imp {l : List Effect} {p q : Effect → Bool} (h : l.all p = true)
    (hpq : ∀ e, p e = true → q e = true) : l.all q = true := by
  simp only [List.all_eq_true] at h ⊢
  exact fun e he => hpq e (h e he)

lemma cleanupPhase_all (cfg : Config) (fs : FileSys) (sub ses : String) (reports : List String) :
    ((cleanupPhase cfg fs sub ses reports).1.all fun e => isRmtreeEff e || isUnlinkEff e) = true := by
  simp only [cleanupPhase, List.all_append, Bool.and_eq_true]
  constructor
  · split <;> simp [isRmtreeEff]
  · split
    · exact all_imp (unlinkAll_all_unlink fs cfg.outputdir reports)
        (fun e he => by simp [he])
    · rfl

lemma trace_cleanup {l : List Effect}
    (h : (l.all fun e => isRmtreeEff e || isUnlinkEff e) = true) :
    queryCount l = 0 ∧ hasRunCmd l = false ∧ hasMkdir l = false := by
  induction l with
  | nil => exact ⟨rfl, rfl, rfl⟩
  | cons e l ih =>
    simp only [List.all_cons, Bool.and_eq_true] at h
    obtain ⟨he, hl⟩ := h
    obtain ⟨h1, h2, h3⟩ := ih hl
    cases e <;> simp_all [isRmtreeEff, isUnlinkEff, isQueryEff, isRunCmdEff, isMkdirEff,
      queryCount, hasRunCmd, hasMkdir]

lemma queryCount_append (a b : List Effect) :
    queryCount (a ++ b) = queryCount a + queryCount b := by
  simp [queryCount]

lemma hasRunCmd_append (a b : List Effect) :
    hasRunCmd (a ++ b) = (hasRunCmd a || hasRunCmd b) := by
  simp [hasRunCmd]

lemma queryCount_mkdir_ite {c : Prop} [Decidable c] (w : List String) :
    queryCount (if c then [Effect.mkdirWork w] else []) = 0 := by
  split <;> rfl

lemma queryCount_rmtree_ite {c : Prop} [Decidable c] (w : List String) :
    queryCount (if c then [Effect.rmtree w] else []) = 0 := by
  split <;> rfl

lemma queryCount_err_ite {c : Prop} [Decidable c] (s : String) :
    queryCount (if c then [Effect.submitError s] else []) = 0 := by
  split <;> rfl

lemma hasRunCmd_mkdir_ite {c : Prop} [Decidable c] (w : List String) :
    hasRunCmd (if c then [Effect.mkdirWork w] else []) = false := by
  split <;> rfl

lemma runPhase_found (cfg : Config) (fs : FileSys) (sub ses : String) (f n : Nat)
    (cl : List Effect) : (runPhase cfg fs sub ses f n cl).found = f := by
  simp only [runPhase]
  split
  · rfl
  · split <;> rfl

lemma runPhase_expected (cfg : Config) (fs : FileSys) (sub ses : String) (f n : Nat)
    (cl : List Effect) : (runPhase cfg fs sub ses f n cl).expected = n := by
  simp only [runPhase]
  split
  · rfl
  · split <;> rfl

lemma runPhase_outcome (cfg : Config) (fs : FileSys) (sub ses : String) (f n : Nat)
    (cl : List Effect) :
    (runPhase cfg fs sub ses f n cl).outcome = Outcome.skippedRunning ∨
    (runPhase cfg fs sub ses f n cl).outcome = Outcome.launched := by
  simp only [runPhase]
  split
  · left; rfl
  · split
    · right; rfl
    · right; rfl

lemma runPhase_skipped_iff (cfg : Config) (fs : FileSys) (sub ses : String) (f n : Nat)
    (cl : List Effect) :
    (runPhase cfg fs sub ses f n cl).outcome = Outcome.skippedRunning ↔
      (cfg.skip && strContains (fs.runStdout (subQueryCmd cfg.manager)) (jobName sub ses)) = true := by
  simp only [runPhase]
  split
  · rename_i h; simp [h]
  · rename_i h
    split <;> simp [h]

lemma queryCount_query_single (s : String) : queryCount [Effect.query s] = 1 := rfl

lemma queryCount_runCmd_single (s : String) : queryCount [Effect.runCmd s] = 0 := rfl

lemma runPhase_queryCount (cfg : Config) (fs : FileSys) (sub ses : String) (f n : Nat)
    (cl : List Effect) :
    queryCount (runPhase cfg fs sub ses f n cl).effects = queryCount cl + 1 := by
  simp only [runPhase]
  split
  · dsimp only
    simp only [queryCount_append, queryCount_mkdir_ite, queryCount_err_ite,
      queryCount_rmtree_ite, queryCount_query_single, queryCount_runCmd_single,
      Nat.add_zero, Nat.zero_add]
  · split <;>
    · dsimp only
      simp only [queryCount_append, queryCount_mkdir_ite, queryCount_err_ite,
        queryCount_rmtree_ite, queryCount_query_single, queryCount_runCmd_single,
        Nat.add_zero, Nat.zero_add]

lemma runPhase_effects_skip (cfg : Config) (fs : FileSys) (sub ses : String) (f n : Nat)
    (cl : List Effect)
    (h : (cfg.skip && strContains (fs.runStdout (subQueryCmd cfg.manager)) (jobName sub ses)) =
      true) :
    (runPhase cfg fs sub ses f n cl).effects =
      cl ++ [Effect.query (subQueryCmd cfg.manager)] ++
        (if cfg.nosub = true then [Effect.mkdirWork (workdirOf cfg sub ses)] else []) := by
  simp only [runPhase, h]
  rfl

lemma runPhase_effects_dryrun (cfg : Config) (fs : FileSys) (sub ses : String) (f n : Nat)
    (cl : List Effect) (hdry : cfg.dryrun = true) :
    (runPhase cfg fs sub ses f n cl).effects =
      cl ++ [Effect.query (subQueryCmd cfg.manager)] ++
        (if cfg.nosub = true then [Effect.mkdirWork (workdirOf cfg sub ses)] else []) := by
  simp only [runPhase, hdry]
  split
  · rfl
  · rfl

lemma runPhase_effects_run (cfg : Config) (fs : FileSys) (sub ses : String) (f n : Nat)
    (cl : List Effect)
    (hns : (cfg.skip && strContains (fs.runStdout (subQueryCmd cfg.manager)) (jobName sub ses)) =
      false)
    (hdry : cfg.dryrun = false) :
    (runPhase cfg fs sub ses f n cl).effects =
      cl ++ [Effect.query (subQueryCmd cfg.manager)] ++
        (if cfg.nosub = true then [Effect.mkdirWork (workdirOf cfg sub ses)] else []) ++
        [Effect.runCmd (buildCommand cfg sub ses)] ++
        (if (fs.runStderr (buildCommand cfg sub ses) != "" ||
            fs.runRC (buildCommand cfg sub ses) != 0) = true then
          [Effect.submitError (buildCommand cfg sub ses)] else []) ++
        (if cfg.nosub = true then [Effect.rmtree (workdirOf cfg sub ses)] else []) := by
  simp only [runPhase, hns, hdry]
  simp only [Bool.false_eq_true, if_false]

lemma processUnit_found (cfg : Config) (fs : FileSys) (sub ses : String) :
    (processUnit cfg fs sub ses).found = (foundReports cfg fs sub ses).length := by
  simp only [processUnit]
  split
  · split
    · rfl
    · exact runPhase_found cfg fs sub ses _ _ _
  · rfl

lemma processUnit_expected (cfg : Config) (fs : FileSys) (sub ses : String) :
    (processUnit cfg fs sub ses).expected = expectedCount cfg fs sub ses := by
  simp only [processUnit]
  split
  · split
    · rfl
    · exact runPhase_expected cfg fs sub ses _ _ _
  · rfl

lemma processUnit_nothingToDo_iff (cfg : Config) (fs : FileSys) (sub ses : String) :
    (processUnit cfg fs sub ses).outcome = Outcome.nothingToDo ↔
      (cfg.force = false ∧
        (foundReports cfg fs sub ses).length = expectedCount cfg fs sub ses) := by
  simp only [processUnit]
  split
  · rename_i hcond
    constructor
    · intro hout
      exfalso
      revert hout
      split
      · simp
      · rcases runPhase_outcome cfg fs sub ses (foundReports cfg fs sub ses).length
          (expectedCount cfg fs sub ses)
          (cleanupPhase cfg fs sub ses (foundReports cfg fs sub ses)).1 with h | h <;>
          simp [h]
    · intro ⟨hf, he⟩
      simp [hf, he] at hcond
  · rename_i hcond
    simp only [Bool.or_eq_true, not_or, Bool.not_eq_true, Bool.not_eq_false,
      Bool.not_eq_true', beq_iff_eq] at hcond
    exact ⟨fun _ => hcond, fun _ => rfl⟩

lemma processUnit_nothingToDo_effects (cfg : Config) (fs : FileSys) (sub ses : String)
    (h : (processUnit cfg fs sub ses).outcome = Outcome.nothingToDo) :
    (processUnit cfg fs sub ses).effects = [] := by
  obtain ⟨hf, he⟩ := (processUnit_nothingToDo_iff cfg fs sub ses).mp h
  simp [processUnit, hf, he]

lemma processUnit_outcomes (cfg : Config) (fs : FileSys) (sub ses : String) :
    (processUnit cfg fs sub ses).outcome = Outcome.nothingToDo ∨
    (processUnit cfg fs sub ses).outcome = Outcome.crashedUnlink ∨
    (processUnit cfg fs sub ses).outcome = Outcome.skippedRunning ∨
    (processUnit cfg fs sub ses).outcome = Outcome.launched := by
  simp only [processUnit]
  split
  · split
    · right; left; rfl
    · rcases runPhase_outcome cfg fs sub ses (foundReports cfg fs sub ses).length
        (expectedCount cfg fs sub ses)
        (cleanupPhase cfg fs sub ses (foundReports cfg fs sub ses)).1 with h | h
      · right; right; left; exact h
      · right; right; right; exact h
  · left; rfl

lemma processUnit_eq_runPhase (cfg : Config) (fs : FileSys) (sub ses : String)
    (hgate : (processUnit cfg fs sub ses).outcome ≠ Outcome.nothingToDo)
    (hnocrash : (processUnit cfg fs sub ses).outcome ≠ Outcome.crashedUnlink) :
    processUnit cfg fs sub ses =
      runPhase cfg fs sub ses (foundReports cfg fs sub ses).length
        (expectedCount cfg fs sub ses)
        (cleanupPhase cfg fs sub ses (foundReports cfg fs sub ses)).1 := by
  revert hgate hnocrash
  simp only [processUnit]
  split
  · split
    · intro _ hnc
      exact absurd rfl hnc
    · intro _ _
      rfl
  · intro hg _
    exact absurd rfl hg

/-- C1: for a participant/session work unit, with `force` unset the
outcome is "nothing to do" (Skipped) exactly when the number of found
reports equals the number of expected input files — exact equality, so
`found > expected` also proceeds — and a skipped unit performs no
effect at all (no cleanup, no job build, no query, no submission);
any other unit goes down the cleanup/build/submit path, and with
`force` set the unit is never skipped as complete. -/
theorem c1_completion_gate (cfg : Config) (fs : FileSys) (sub ses : String) :
    (cfg.force = false →
      ((processUnit cfg fs sub ses).outcome = Outcome.nothingToDo ↔
        (foundReports cfg fs sub ses).length = expectedCount cfg fs sub ses)) ∧
    ((processUnit cfg fs sub ses).outcome = Outcome.nothingToDo →
      (processUnit cfg fs sub ses).effects = []) ∧
    ((processUnit cfg fs sub ses).outcome ≠ Outcome.nothingToDo →
      (processUnit cfg fs sub ses).outcome = Outcome.crashedUnlink ∨
      (processUnit cfg fs sub ses).outcome = Outcome.skippedRunning ∨
      (processUnit cfg fs sub ses).outcome = Outcome.launched) ∧
    (cfg.force = true → (processUnit cfg fs sub ses).outcome ≠ Outcome.nothingToDo) := by
  refine ⟨?_, processUnit_nothingToDo_effects cfg fs sub ses, ?_, ?_⟩
  · intro hf
    rw [processUnit_nothingToDo_iff]
    simp [hf]
  · intro hne
    rcases processUnit_outcomes cfg fs sub ses with h | h | h | h
    · exact absurd h hne
    · exact Or.inl h
    · exact Or.inr (Or.inl h)
    · exact Or.inr (Or.inr h)
  · intro hf hout
    obtain ⟨hf2, _⟩ := (processUnit_nothingToDo_iff cfg fs sub ses).mp hout
    rw [hf] at hf2
    cases hf2

/-- C2 (amended): the running-job registry is queried from inside the
per-unit loop, once by every work unit that passes the completion gate
(outcome skipped-as-running or launched) and never otherwise — not a
single time per orchestration pass. -/
theorem c2_query_per_unit (cfg : Config) (fs : FileSys) (sub ses : String) :
    queryCount (processUnit cfg fs sub ses).effects =
      (if (processUnit cfg fs sub ses).outcome = Outcome.skippedRunning ∨
          (processUnit cfg fs sub ses).outcome = Outcome.launched then 1 else 0) := by
  simp only [processUnit]
  split
  · split
    · rw [if_neg (by simp)]
      exact (trace_cleanup (cleanupPhase_all cfg fs sub ses (foundReports cfg fs sub ses))).1
    · rw [runPhase_queryCount,
        (trace_cleanup (cleanupPhase_all cfg fs sub ses (foundReports cfg fs sub ses))).1]
      rcases runPhase_outcome cfg fs sub ses (foundReports cfg fs sub ses).length
        (expectedCount cfg fs sub ses)
        (cleanupPhase cfg fs sub ses (foundReports cfg fs sub ses)).1 with h | h
      · rw [if_pos (Or.inl h)]
      · rw [if_pos (Or.inr h)]
  · rw [if_neg (by simp)]
    rfl

/-- C3: for a unit whose job name occurs in the running-job query
output and that reaches the running check, `skip = true` gives the
Skipped("already running/queued") outcome with no submission or local
run — even though the completion oracle reported the unit incomplete —
while `skip = false` ignores the match: the unit is launched, and
outside dry-run mode the submission command really runs. -/
theorem c3_skip_gate (cfg : Config) (fs : FileSys) (sub ses : String)
    (hmatch : strContains (fs.runStdout (subQueryCmd cfg.manager)) (jobName sub ses) = true)
    (hgate : (processUnit cfg fs sub ses).outcome ≠ Outcome.nothingToDo)
    (hnocrash : (processUnit cfg fs sub ses).outcome ≠ Outcome.crashedUnlink) :
    (cfg.skip = true →
      (processUnit cfg fs sub ses).outcome = Outcome.skippedRunning ∧
      hasRunCmd (processUnit cfg fs sub ses).effects = false) ∧
    (cfg.skip = false →
      (processUnit cfg fs sub ses).outcome = Outcome.launched ∧
      (cfg.dryrun = false → hasRunCmd (processUnit cfg fs sub ses).effects = true)) := by
  have heq := processUnit_eq_runPhase cfg fs sub ses hgate hnocrash
  rw [heq]
  have hcl :=
    (trace_cleanup (cleanupPhase_all cfg fs sub ses (foundReports cfg fs sub ses))).2.1
  constructor
  · intro hs
    have hcond : (cfg.skip &&
        strContains (fs.runStdout (subQueryCmd cfg.manager)) (jobName sub ses)) = true := by
      rw [hs, hmatch]
      rfl
    refine ⟨(runPhase_skipped_iff cfg fs sub ses _ _ _).mpr hcond, ?_⟩
    rw [runPhase_effects_skip cfg fs sub ses _ _ _ hcond]
    rw [hasRunCmd_append, hasRunCmd_append, hasRunCmd_mkdir_ite, hcl]
    rfl
  · intro hs
    have hcond : (cfg.skip &&
        strContains (fs.runStdout (subQueryCmd cfg.manager)) (jobName sub ses)) = false := by
      rw [hs]
      rfl
    constructor
    · rcases runPhase_outcome cfg fs sub ses (foundReports cfg fs sub ses).length
        (expectedCount cfg fs sub ses)
        (cleanupPhase cfg fs sub ses (foundReports cfg fs sub ses)).1 with h | h
      · rw [runPhase_skipped_iff, hcond] at h
        cases h
      · exact h
    · intro hdry
      rw [runPhase_effects_run cfg fs sub ses _ _ _ hcond hdry]
      rw [hasRunCmd_append, hasRunCmd_append, hasRunCmd_append, hasRunCmd_append]
      simp [hasRunCmd, isRunCmdEff]

lemma hasRmtree_append (a b : List Effect) :
    hasRmtree (a ++ b) = (hasRmtree a || hasRmtree b) := by
  simp [hasRmtree]

lemma hasUnlink_append (a b : List Effect) :
    hasUnlink (a ++ b) = (hasUnlink a || hasUnlink b) := by
  simp [hasUnlink]

lemma hasMkdir_append (a b : List Effect) :
    hasMkdir (a ++ b) = (hasMkdir a || hasMkdir b) := by
  simp [hasMkdir]

lemma hasRmtree_mkdir_ite {c : Prop} [Decidable c] (w : List String) :
    hasRmtree (if c then [Effect.mkdirWork w] else []) = false := by
  split <;> rfl

lemma hasUnlink_mkdir_ite {c : Prop} [Decidable c] (w : List String) :
    hasUnlink (if c then [Effect.mkdirWork w] else []) = false := by
  split <;> rfl

lemma cleanupPhase_dryrun (cfg : Config) (fs : FileSys) (sub ses : String)
    (reports : List String) (hdry : cfg.dryrun = true) :
    cleanupPhase cfg fs sub ses reports = ([], true) := by
  simp [cleanupPhase, hdry]

/-- C4: the expected count is the number of `T?w.nii*` files in the
unit's `anat` and `extra_data` folders plus the number of `bold.nii*`
files in its `func` and `extra_data` folders, each matched by a glob
pattern prefixed with `{sub}_{ses}`; the found count is the number of
`.html` files in the output directory matching the same prefix.
Scenario A (one T1w, two bold, no reports) gives expected 3, found 0,
and the unit is submitted. -/
theorem c4_completion_counts (cfg : Config) (fs : FileSys) (sub ses : String) :
    ((processUnit cfg fs sub ses).expected =
      countGlob fs (unitPath cfg sub ses ++ ["anat"]) s!"{sub}_{ses}*T?w.nii*" +
      countGlob fs (unitPath cfg sub ses ++ ["extra_data"]) s!"{sub}_{ses}*T?w.nii*" +
      countGlob fs (unitPath cfg sub ses ++ ["func"]) s!"{sub}_{ses}*bold.nii*" +
      countGlob fs (unitPath cfg sub ses ++ ["extra_data"]) s!"{sub}_{ses}*bold.nii*") ∧
    ((processUnit cfg fs sub ses).found =
      ((fs.listDir cfg.outputdir).filter fun f => globMatch s!"{sub}_{ses}*.html" f).length) ∧
    (processUnit cfgA fsA "sub-01" "ses-1").expected = 3 ∧
    (processUnit cfgA fsA "sub-01" "ses-1").found = 0 ∧
    (processUnit cfgA fsA "sub-01" "ses-1").outcome = Outcome.launched := by
  refine ⟨processUnit_expected cfg fs sub ses, processUnit_found cfg fs sub ses, ?_, ?_, ?_⟩ <;>
    decide

/-- C2 counterexample: one orchestration pass over two incomplete units
executes the running-job query twice, refuting "queried exactly once
per orchestration pass, before the per-unit loop starts". -/
theorem c2_counterexample_two_queries :
    totalQueries (runLoop cfgA fsA [["bids", "sub-01", "ses-1"], ["bids", "sub-02"]]) = 2 := by
  decide

/-- C5 counterexample: in dry-run mode combined with local-run mode the
working directory is still created — `workdir.mkdir(parents=True,
exist_ok=True)` is not guarded by the dry-run flag — refuting "no
filesystem artifact is created". -/
theorem c5_counterexample_dryrun_mkdir :
    cfgDryNosub.dryrun = true ∧
    Effect.mkdirWork ["/tmp", "sub-01_ses-1"] ∈
      (processUnit cfgDryNosub fsA "sub-01" "ses-1").effects := by
  decide

/-- C5 (amended): in dry-run mode no working directory is removed, no
report file is deleted and no submission or local run is executed, and
the working directory is not created either unless local-run mode is
also set; the running-job query subprocess is still executed. -/
theorem c5_dryrun_frame (cfg : Config) (fs : FileSys) (sub ses : String)
    (hdry : cfg.dryrun = true) :
    hasRmtree (processUnit cfg fs sub ses).effects = false ∧
    hasUnlink (processUnit cfg fs sub ses).effects = false ∧
    hasRunCmd (processUnit cfg fs sub ses).effects = false ∧
    (cfg.nosub = false → hasMkdir (processUnit cfg fs sub ses).effects = false) := by
  simp only [processUnit,
    cleanupPhase_dryrun cfg fs sub ses (foundReports cfg fs sub ses) hdry]
  split
  · rw [if_neg (by simp)]
    rw [runPhase_effects_dryrun cfg fs sub ses (foundReports cfg fs sub ses).length
      (expectedCount cfg fs sub ses) ([], true).1 hdry]
    refine ⟨?_, ?_, ?_, ?_⟩
    · rw [hasRmtree_append, hasRmtree_append, hasRmtree_mkdir_ite]
      rfl
    · rw [hasUnlink_append, hasUnlink_append, hasUnlink_mkdir_ite]
      rfl
    · rw [hasRunCmd_append, hasRunCmd_append, hasRunCmd_mkdir_ite]
      rfl
    · intro hn
      simp [hn, hasMkdir_append, hasMkdir, isMkdirEff]
  · exact ⟨rfl, rfl, rfl, fun _ => rfl⟩

lemma unlinkAll_fails (fs : FileSys) (out : List String) :
    ∀ rs, (rs.any fun r => !fs.unlinkOk (out ++ [r])) = true →
      (unlinkAll fs out rs).2 = false := by
  intro rs
  induction rs with
  | nil => intro h; cases h
  | cons r rs ih =>
    intro h
    simp only [List.any_cons, Bool.or_eq_true] at h
    simp only [unlinkAll]
    split
    · rename_i hok
      rcases h with h | h
      · rw [hok] at h
        cases h
      · exact ih h
    · rfl

lemma cleanupPhase_snd (cfg : Config) (fs : FileSys) (sub ses : String)
    (reports : List String) (hf : cfg.force = true) (hd : cfg.dryrun = false) :
    (cleanupPhase cfg fs sub ses reports).2 = (unlinkAll fs cfg.outputdir reports).2 := by
  simp [cleanupPhase, hf, hd]

lemma processUnit_crash_of_badUnlink (cfg : Config) (fs : FileSys) (sub ses : String)
    (hf : cfg.force = true) (hd : cfg.dryrun = false)
    (hbad : ((foundReports cfg fs sub ses).any
      fun r => !fs.unlinkOk (cfg.outputdir ++ [r])) = true) :
    (processUnit cfg fs sub ses).outcome = Outcome.crashedUnlink ∧
    hasRunCmd (processUnit cfg fs sub ses).effects = false := by
  have h2 : (cleanupPhase cfg fs sub ses (foundReports cfg fs sub ses)).2 = false := by
    rw [cleanupPhase_snd cfg fs sub ses (foundReports cfg fs sub ses) hf hd]
    exact unlinkAll_fails fs cfg.outputdir (foundReports cfg fs sub ses) hbad
  have hred : processUnit cfg fs sub ses =
      ⟨Outcome.crashedUnlink, (foundReports cfg fs sub ses).length,
        expectedCount cfg fs sub ses,
        (cleanupPhase cfg fs sub ses (foundReports cfg fs sub ses)).1⟩ := by
    simp only [processUnit, hf]
    rw [if_pos (by simp), if_pos (by rw [h2]; rfl)]
  rw [hred]
  refine ⟨rfl, ?_⟩
  exact (trace_cleanup (cleanupPhase_all cfg fs sub ses (foundReports cfg fs sub ses))).2.1

/-- C6 (amended): forced removal of the stale working directory is
best-effort (`shutil.rmtree(..., ignore_errors=True)` cannot raise),
but stale report deletion uses a bare `report.unlink()`: when any
report's unlink fails the unit crashes, is not rebuilt, and the batch
loop stops at that unit. -/
theorem c6_forced_cleanup (cfg : Config) (fs : FileSys) (sub ses : String)
    (hf : cfg.force = true) (hd : cfg.dryrun = false)
    (hbad : ((foundReports cfg fs sub ses).any
      fun r => !fs.unlinkOk (cfg.outputdir ++ [r])) = true) :
    (processUnit cfg fs sub ses).outcome = Outcome.crashedUnlink ∧
    hasRunCmd (processUnit cfg fs sub ses).effects = false ∧
    ∀ session rest, fs.isDir session = true → sessionIds session = some (sub, ses) →
      runLoop cfg fs (session :: rest) = [processSession cfg fs session] := by
  obtain ⟨ho, hr⟩ := processUnit_crash_of_badUnlink cfg fs sub ses hf hd hbad
  refine ⟨ho, hr, ?_⟩
  intro session rest hdir hids
  have hps : processSession cfg fs session = processUnit cfg fs sub ses := by
    simp [processSession, hdir, hids]
  simp only [runLoop, hps, ho]
  rfl

/-- C6 counterexample: with `force` set, a report file whose deletion
fails makes the unit crash with an uncaught `OSError`; the unit is not
rebuilt (no submission) and the loop aborts, so the second unit is
never processed — refuting "non-fatal ... the batch loop continues". -/
theorem c6_counterexample_unlink_fatal :
    (runLoop cfgForce fsC6 [["bids", "sub-01", "ses-1"], ["bids", "sub-02"]]).map
        UnitResult.outcome = [Outcome.crashedUnlink] ∧
    hasRunCmd (processUnit cfgForce fsC6 "sub-01" "ses-1").effects = false := by
  decide

/-- C7 (amended): in local-run mode the very last effect of a launched
unit is the removal of its working directory, regardless of the run's
exit code or stderr (both universally quantified here) and regardless
of whether the directory lies under a user-specified work root. -/
theorem c7_localrun_cleanup (cfg : Config) (fs : FileSys) (sub ses : String)
    (hn : cfg.nosub = true) (hd : cfg.dryrun = false)
    (hlaunch : (processUnit cfg fs sub ses).outcome = Outcome.launched) :
    (processUnit cfg fs sub ses).effects.getLast? =
      some (Effect.rmtree (workdirOf cfg sub ses)) := by
  have hgate : (processUnit cfg fs sub ses).outcome ≠ Outcome.nothingToDo := by
    rw [hlaunch]; simp
  have hnocrash : (processUnit cfg fs sub ses).outcome ≠ Outcome.crashedUnlink := by
    rw [hlaunch]; simp
  have heq := processUnit_eq_runPhase cfg fs sub ses hgate hnocrash
  rw [heq] at hlaunch ⊢
  have hcond : (cfg.skip &&
      strContains (fs.runStdout (subQueryCmd cfg.manager)) (jobName sub ses)) = false := by
    rcases Bool.eq_false_or_eq_true (cfg.skip &&
      strContains (fs.runStdout (subQueryCmd cfg.manager)) (jobName sub ses)) with h | h
    · exfalso
      have hs := (runPhase_skipped_iff cfg fs sub ses (foundReports cfg fs sub ses).length
        (expectedCount cfg fs sub ses)
        (cleanupPhase cfg fs sub ses (foundReports cfg fs sub ses)).1).mpr h
      rw [hlaunch] at hs
      cases hs
    · exact h
  rw [runPhase_effects_run cfg fs sub ses (foundReports cfg fs sub ses).length
    (expectedCount cfg fs sub ses)
    (cleanupPhase cfg fs sub ses (foundReports cfg fs sub ses)).1 hcond hd, hn]
  rw [if_pos rfl, if_pos rfl]
  rw [List.getLast?_append_cons]
  rfl

/-- C7 counterexample: with a user-specified persistent work root and
local-run mode, the post-run cleanup still deletes the unit's working
directory under that root (the `shutil.rmtree(workdir)` after the run
does not exempt user work roots; `force` is unset, so this is not the
forced pre-run cleanup) — refuting "never auto-deleted". -/
theorem c7_counterexample_workroot_removed :
    cfgC7.workroot = "/work" ∧ cfgC7.force = false ∧ cfgC7.nosub = true ∧
    Effect.rmtree ["/work", "sub-01_ses-1"] ∈
      (processUnit cfgC7 fsC7 "sub-01" "ses-1").effects := by
  decide

/-- C8: a selection entry whose path is not an existing directory is
reported with the "directory does not exist" outcome, produces no
effect and no submission, the loop continues with the remaining
entries, and such an entry never makes the batch exit non-zero. -/
theorem c8_missing_session_dir (cfg : Config) (fs : FileSys) (session : List String)
    (rest : List (List String)) (hdir : fs.isDir session = false) :
    processSession cfg fs session = ⟨Outcome.notADir, 0, 0, []⟩ ∧
    runLoop cfg fs (session :: rest) =
      processSession cfg fs session :: runLoop cfg fs rest ∧
    (runCompletes (runLoop cfg fs rest) = true →
      runCompletes (runLoop cfg fs (session :: rest)) = true) := by
  have hps : processSession cfg fs session = ⟨Outcome.notADir, 0, 0, []⟩ := by
    simp [processSession, hdir]
  have hloop : runLoop cfg fs (session :: rest) =
      processSession cfg fs session :: runLoop cfg fs rest := by
    simp only [runLoop, hps]
    rfl
  refine ⟨hps, hloop, ?_⟩
  intro hc
  rw [hloop, hps]
  simp only [runCompletes, List.all_cons]
  rw [runCompletes] at hc
  rw [hc]
  rfl

/-- C9: the group-level job is gated by a non-emptiness check: no
effect at all when no `sub-*.html` report exists, submission implies at
least one report exists, and with at least one report (plus an existing
output directory and `force`) the job is built and submitted. -/
theorem c9_group_report_gate (cfg : GroupConfig) (fs : FileSys) :
    ((groupReports cfg fs).isEmpty = true → (groupRun cfg fs).2 = []) ∧
    ((groupRun cfg fs).1 = GroupOutcome.submitted →
      (groupReports cfg fs).isEmpty = false ∧ fs.isDir cfg.outputdir = true) ∧
    (fs.isDir cfg.outputdir = true → (groupReports cfg fs).isEmpty = false →
      cfg.force = true →
      (groupRun cfg fs).1 = GroupOutcome.submitted ∧
      hasRunCmd (groupRun cfg fs).2 = true) := by
  refine ⟨?_, ?_, ?_⟩
  · intro hemp
    simp [groupRun, hemp]
    split <;> rfl
  · intro hsub
    have h2 : fs.isDir cfg.outputdir = true := by
      rcases Bool.eq_false_or_eq_true (fs.isDir cfg.outputdir) with h | h
      · exact h
      · exfalso
        simp [groupRun, h] at hsub
    have h3 : (groupReports cfg fs).isEmpty = false := by
      rcases Bool.eq_false_or_eq_true ((groupReports cfg fs).isEmpty) with h | h
      · exfalso
        simp [groupRun, h, h2] at hsub
      · exact h
    exact ⟨h3, h2⟩
  · intro hdir hemp hforce
    simp [groupRun, hdir, hemp, hforce, hasRunCmd, isRunCmdEff]

/-- C10: in the group script, whenever `force` is unset the
already-running guard evaluates `running.stdout.decode()` on a value
that `subprocess.run(..., text=True)` already decoded to `str`, raising
`AttributeError` before any skip/submit decision; the submit branch is
reachable only with `force` set. -/
theorem c10_group_decode_crash (cfg : GroupConfig) (fs : FileSys)
    (hdir : fs.isDir cfg.outputdir = true)
    (hrep : (groupReports cfg fs).isEmpty = false) :
    (cfg.force = false →
      (groupRun cfg fs).1 = GroupOutcome.crashedDecode ∧
      hasRunCmd (groupRun cfg fs).2 = false) ∧
    ((groupRun cfg fs).1 = GroupOutcome.submitted → cfg.force = true) ∧
    ((groupRun cfg fs).1 = GroupOutcome.submitted ∨
      (groupRun cfg fs).1 = GroupOutcome.crashedDecode) := by
  rcases Bool.eq_false_or_eq_true cfg.force with hf | hf <;>
    simp [groupRun, hdir, hrep, hf, hasRunCmd, isRunCmdEff, isQueryEff]

/-- C1 witness: Scenario B — three matching reports against three
expected inputs, `force` unset — evaluates to "nothing to do" with an
empty effect trace. -/
theorem c1_completion_gate_witness :
    (processUnit cfgA fsB "sub-01" "ses-1").outcome = Outcome.nothingToDo ∧
    (processUnit cfgA fsB "sub-01" "ses-1").effects = [] := by
  have h := c1_completion_gate cfgA fsB "sub-01" "ses-1"
  have h1 : (processUnit cfgA fsB "sub-01" "ses-1").outcome = Outcome.nothingToDo :=
    (h.1 rfl).mpr (by decide)
  exact ⟨h1, h.2.1 h1⟩

/-- C3 witness: an incomplete unit whose job name is reported running
is skipped without any submission when `skip` is enabled. -/
theorem c3_skip_gate_witness :
    (processUnit cfgA fsC3 "sub-01" "ses-1").outcome = Outcome.skippedRunning ∧
    hasRunCmd (processUnit cfgA fsC3 "sub-01" "ses-1").effects = false :=
  (c3_skip_gate cfgA fsC3 "sub-01" "ses-1" (by decide) (by decide) (by decide)).1 rfl

/-- C5 witness: a dry-run (without local-run) over an incomplete unit
removes nothing, deletes nothing, runs nothing and creates nothing. -/
theorem c5_dryrun_frame_witness :
    hasRmtree (processUnit cfgDry fsA "sub-01" "ses-1").effects = false ∧
    hasUnlink (processUnit cfgDry fsA "sub-01" "ses-1").effects = false ∧
    hasRunCmd (processUnit cfgDry fsA "sub-01" "ses-1").effects = false ∧
    hasMkdir (processUnit cfgDry fsA "sub-01" "ses-1").effects = false := by
  have h := c5_dryrun_frame cfgDry fsA "sub-01" "ses-1" rfl
  exact ⟨h.1, h.2.1, h.2.2.1, h.2.2.2 rfl⟩

/-- C6 witness: a forced re-run whose first stale report cannot be
deleted crashes the unit and truncates the batch after it. -/
theorem c6_forced_cleanup_witness :
    (processUnit cfgForce fsC6 "sub-01" "ses-1").outcome = Outcome.crashedUnlink ∧
    hasRunCmd (processUnit cfgForce fsC6 "sub-01" "ses-1").effects = false ∧
    runLoop cfgForce fsC6 [["bids", "sub-01", "ses-1"], ["bids", "sub-02"]] =
      [processSession cfgForce fsC6 ["bids", "sub-01", "ses-1"]] := by
  have h := c6_forced_cleanup cfgForce fsC6 "sub-01" "ses-1" rfl rfl (by decide)
  exact ⟨h.1, h.2.1,
    h.2.2 ["bids", "sub-01", "ses-1"] [["bids", "sub-02"]] (by decide) (by decide)⟩

/-- C7 witness: a local run that fails (exit code 1) under the work
root `/work` still ends by removing `/work/sub-01_ses-1`. -/
theorem c7_localrun_cleanup_witness :
    (processUnit cfgC7 fsC7 "sub-01" "ses-1").effects.getLast? =
      some (Effect.rmtree (workdirOf cfgC7 "sub-01" "ses-1")) ∧
    fsC7.runRC (buildCommand cfgC7 "sub-01" "ses-1") = 1 :=
  ⟨c7_localrun_cleanup cfgC7 fsC7 "sub-01" "ses-1" rfl rfl (by decide), by decide⟩

/-- C8 witness: the non-existent entry `bids/sub-99` yields the
"directory does not exist" outcome and the batch still completes. -/
theorem c8_missing_session_dir_witness :
    processSession cfgA fsA ["bids", "sub-99"] = ⟨Outcome.notADir, 0, 0, []⟩ ∧
    runLoop cfgA fsA [["bids", "sub-99"], ["bids", "sub-01", "ses-1"]] =
      processSession cfgA fsA ["bids", "sub-99"] ::
        runLoop cfgA fsA [["bids", "sub-01", "ses-1"]] ∧
    runCompletes (runLoop cfgA fsA [["bids", "sub-99"], ["bids", "sub-01", "ses-1"]]) =
      true := by
  have h := c8_missing_session_dir cfgA fsA ["bids", "sub-99"]
    [["bids", "sub-01", "ses-1"]] (by decide)
  exact ⟨h.1, h.2.1, h.2.2 (by decide)⟩

/-- C9 witness: an empty output directory produces no group job, while
one existing participant report leads to a submission. -/
theorem c9_group_report_gate_witness :
    (groupRun gcfgA gfsEmpty).2 = [] ∧
    (groupRun gcfgA gfsA).1 = GroupOutcome.submitted ∧
    hasRunCmd (groupRun gcfgA gfsA).2 = true := by
  refine ⟨(c9_group_report_gate gcfgA gfsEmpty).1 (by decide), ?_⟩
  have h := (c9_group_report_gate gcfgA gfsA).2.2 (by decide) (by decide) rfl
  exact h

/-- C10 witness: the group script with `force` unset and one report
present crashes in the decode guard and never submits. -/
theorem c10_group_decode_crash_witness :
    (groupRun gcfgNF gfsA).1 = GroupOutcome.crashedDecode ∧
    hasRunCmd (groupRun gcfgNF gfsA).2 = false :=
  (c10_group_decode_crash gcfgNF gfsA (by decide) (by decide)).1 rfl
